import Mathlib

/-!
Shallow embedding of `src/mldr/core/config.py` from the
multi-llm-deep-research repository, together with proofs of the
specification's testable properties.

Conventions of the embedding:
* Python strings are Lean `String`s; Python `int` is `Int`.
* Python code that can raise is modelled as `Except String α`, the error
  payload carrying the exception message (for `KeyError` on a dict, the
  missing key itself).
* The process environment is a snapshot `String → Option String`
  (`os.environ.get`).
* A Python `dict` built by inserting distinct keys in a fixed order is
  modelled as an association list in insertion order.
-/

/-- Embeds the `ModelConfig` dataclass: `enabled`, `model_name`,
`timeout_sec` (Python `int`). -/
structure ModelConfig where
  enabled : Bool
  model_name : String
  timeout_sec : Int
deriving DecidableEq

/-- Embeds the generated `ModelConfig.__init__`, whose `timeout_sec`
parameter has default value 600: `none` means the caller omitted the
argument. -/
def ModelConfig.init (enabled : Bool) (model_name : String)
    (timeout_sec : Option Int) : ModelConfig :=
  ⟨enabled, model_name, timeout_sec.getD 600⟩

/-- Embeds the `Config` dataclass fields.  The Python class is not frozen,
but no operation in the repository mutates it; constructing a value is done
only through `mkConfig` below, which embeds `__init__` + `__post_init__`. -/
structure Config where
  primary_models : List String
  chairman_model : String
  gpt : ModelConfig
  claude : ModelConfig
  gemini : ModelConfig
  perplexity : ModelConfig
  grok : ModelConfig
deriving DecidableEq

/-- Default factory for the `gpt` field: `ModelConfig(enabled=True,
model_name="gpt-4o")`. -/
def defaultGpt : ModelConfig := ModelConfig.init true "gpt-4o" none

/-- Default factory for the `claude` field. -/
def defaultClaude : ModelConfig :=
  ModelConfig.init true "claude-sonnet-4-20250514" none

/-- Default factory for the `gemini` field. -/
def defaultGemini : ModelConfig := ModelConfig.init false "gemini-1.5-pro" none

/-- Default factory for the `perplexity` field. -/
def defaultPerplexity : ModelConfig := ModelConfig.init false "sonar-pro" none

/-- Default factory for the `grok` field. -/
def defaultGrok : ModelConfig := ModelConfig.init false "grok-2" none

/-- Single-quote character (code 39), used by the Python `repr` of strings. -/
def pySQ : Char := Char.ofNat 39

/-- Double-quote character (code 34). -/
def pyDQ : Char := Char.ofNat 34

/-- Backslash character (code 92). -/
def pyBS : Char := Char.ofNat 92

/-- Python `repr` escaping of one character inside a string literal quoted
with `quote` (printable characters other than the quote and backslash pass
through unchanged). -/
def pyReprChar (quote ch : Char) : String :=
  if ch = pyBS then String.mk [pyBS, pyBS]
  else if ch = quote then String.mk [pyBS, quote]
  else if ch = Char.ofNat 10 then String.mk [pyBS, Char.ofNat 110]
  else if ch = Char.ofNat 13 then String.mk [pyBS, Char.ofNat 114]
  else if ch = Char.ofNat 9 then String.mk [pyBS, Char.ofNat 116]
  else String.mk [ch]

/-- Python `repr` of a string: single-quoted unless the string contains a
single quote and no double quote. -/
def pyReprStr (s : String) : String :=
  let q : Char :=
    if s.toList.contains pySQ && ! s.toList.contains pyDQ then pyDQ else pySQ
  String.mk [q] ++ String.join (s.toList.map (pyReprChar q)) ++ String.mk [q]

/-- Python `str` of a list of strings, as interpolated by an f-string:
`['gpt', 'claude']`. -/
def pyListRepr (l : List String) : String :=
  "[" ++ String.intercalate ", " (l.map pyReprStr) ++ "]"

/-- The message of the `ValueError` raised when `primary_models` is empty. -/
def emptyErrMsg : String := "primary_models must contain at least one model"

/-- The message of the `ValueError` raised when `chairman_model` is not in
`primary_models`: `f"chairman_model='{c}' must be included in
primary_models={l}"`. -/
def chairmanErrMsg (c : String) (l : List String) : String :=
  "chairman_model='" ++ c ++ "' must be included in primary_models="
    ++ pyListRepr l

/-- Embeds `Config.__init__` followed by `Config.__post_init__`: the
dataclass stores the fields and then validates, raising `ValueError` first
when `primary_models` is empty and then when `chairman_model` is not an
element of `primary_models`. -/
def mkConfig (primary_models : List String) (chairman_model : String)
    (gpt claude gemini perplexity grok : ModelConfig) : Except String Config :=
  if primary_models = [] then
    Except.error emptyErrMsg
  else if chairman_model ∉ primary_models then
    Except.error (chairmanErrMsg chairman_model primary_models)
  else
    Except.ok ⟨primary_models, chairman_model, gpt, claude, gemini,
      perplexity, grok⟩

/-- Embeds `default_config()`: `Config(primary_models=["gpt", "claude"])`,
every other argument left at its declared default (`chairman_model="gpt"`
and the five default factories). -/
def default_config : Except String Config :=
  mkConfig ["gpt", "claude"] "gpt" defaultGpt defaultClaude defaultGemini
    defaultPerplexity defaultGrok

/-- C2: for every non-empty `primary_models` containing `chairman_model`,
`Config` construction succeeds and the constructed object's fields equal the
given arguments unchanged. -/
theorem mkConfig_ok_echoes (L : List String) (c : String)
    (g cl ge p gr : ModelConfig) (hne : L ≠ []) (hmem : c ∈ L) :
    mkConfig L c g cl ge p gr = Except.ok ⟨L, c, g, cl, ge, p, gr⟩ := by
  simp [mkConfig, hne, hmem]

/-- Witness for C2 at `primary_models = ["gpt"]`, `chairman_model = "gpt"`. -/
theorem mkConfig_ok_echoes_witness :
    mkConfig ["gpt"] "gpt" defaultGpt defaultClaude defaultGemini
      defaultPerplexity defaultGrok =
      Except.ok ⟨["gpt"], "gpt", defaultGpt, defaultClaude, defaultGemini,
        defaultPerplexity, defaultGrok⟩ :=
  mkConfig_ok_echoes ["gpt"] "gpt" defaultGpt defaultClaude defaultGemini
    defaultPerplexity defaultGrok (by decide) (by decide)

/-- C3: for every `chairman_model` and every choice of the five per-model
configs, construction with empty `primary_models` fails with the
empty-list validation error — even though the chairman-membership check
would also fail (the chairman is never an element of `[]`), the reported
error is the empty-list one, so that check runs first. -/
theorem mkConfig_empty_fails (c : String) (g cl ge p gr : ModelConfig) :
    mkConfig [] c g cl ge p gr = Except.error emptyErrMsg
      ∧ c ∉ ([] : List String) := by
  exact ⟨rfl, by simp⟩

/-- C4: for every non-empty `primary_models` and chairman not an element of
it, construction fails with the validation error whose message contains both
the offending chairman value and the Python rendering of the full
`primary_models` list. -/
theorem mkConfig_chairman_missing_fails (L : List String) (c : String)
    (g cl ge p gr : ModelConfig) (hne : L ≠ []) (hnm : c ∉ L) :
    mkConfig L c g cl ge p gr = Except.error (chairmanErrMsg c L)
      ∧ (∃ a b, chairmanErrMsg c L = a ++ c ++ b)
      ∧ (∃ a b, chairmanErrMsg c L = a ++ pyListRepr L ++ b) := by
  refine ⟨by simp [mkConfig, hne, hnm],
    ⟨"chairman_model='",
     "' must be included in primary_models=" ++ pyListRepr L, ?_⟩,
    ⟨"chairman_model='" ++ c ++ "' must be included in primary_models=",
     "", ?_⟩⟩
  · simp [chairmanErrMsg, String.append_assoc]
  · simp [chairmanErrMsg, String.append_assoc]

/-- Witness for C4 at `primary_models = ["claude"]`, `chairman_model =
"gpt"`. -/
theorem mkConfig_chairman_missing_fails_witness :
    mkConfig ["claude"] "gpt" defaultGpt defaultClaude defaultGemini
        defaultPerplexity defaultGrok
        = Except.error (chairmanErrMsg "gpt" ["claude"])
      ∧ (∃ a b, chairmanErrMsg "gpt" ["claude"] = a ++ "gpt" ++ b)
      ∧ (∃ a b, chairmanErrMsg "gpt" ["claude"]
          = a ++ pyListRepr ["claude"] ++ b) :=
  mkConfig_chairman_missing_fails ["claude"] "gpt" defaultGpt defaultClaude
    defaultGemini defaultPerplexity defaultGrok (by decide) (by decide)

/-- C8: every `Config` that construction returns satisfies the invariant:
`primary_models` is non-empty and `chairman_model` is an element of
`primary_models`.  (Construction through `mkConfig` — i.e. `__init__` +
`__post_init__` — is the only way a `Config` comes into existence in the
repository, and no operation of the repository mutates one.) -/
theorem mkConfig_invariant (L : List String) (c : String)
    (g cl ge p gr : ModelConfig) (cfg : Config)
    (h : mkConfig L c g cl ge p gr = Except.ok cfg) :
    cfg.primary_models ≠ [] ∧ cfg.chairman_model ∈ cfg.primary_models := by
  unfold mkConfig at h
  by_cases h1 : L = []
  · rw [if_pos h1] at h
    cases h
  · rw [if_neg h1] at h
    by_cases h2 : c ∉ L
    · rw [if_pos h2] at h
      cases h
    · rw [if_neg h2] at h
      cases h
      exact ⟨h1, not_not.mp h2⟩

/-- Witness for C8 at `primary_models = ["gpt"]`, `chairman_model = "gpt"`. -/
theorem mkConfig_invariant_witness :
    (Config.mk ["gpt"] "gpt" defaultGpt defaultClaude defaultGemini
        defaultPerplexity defaultGrok).primary_models ≠ []
      ∧ (Config.mk ["gpt"] "gpt" defaultGpt defaultClaude defaultGemini
          defaultPerplexity defaultGrok).chairman_model
        ∈ (Config.mk ["gpt"] "gpt" defaultGpt defaultClaude defaultGemini
            defaultPerplexity defaultGrok).primary_models :=
  mkConfig_invariant ["gpt"] "gpt" defaultGpt defaultClaude defaultGemini
    defaultPerplexity defaultGrok _ rfl

/-- C9: constructing a `ModelConfig` without `timeout_sec` yields 600;
an explicit `timeout_sec` is taken unchanged. -/
theorem modelConfig_timeout_default (e : Bool) (n : String) :
    (ModelConfig.init e n none).timeout_sec = 600
      ∧ ∀ t : Int, (ModelConfig.init e n (some t)).timeout_sec = t :=
  ⟨rfl, fun _ => rfl⟩

/-- C10: validation checks only non-emptiness and chairman membership:
any list of strings containing the chairman constructs successfully, with
no identifier-validity or uniqueness check. -/
theorem mkConfig_no_id_validation (L : List String) (c : String)
    (g cl ge p gr : ModelConfig) (hne : L ≠ []) (hmem : c ∈ L) :
    ∃ cfg, mkConfig L c g cl ge p gr = Except.ok cfg :=
  ⟨⟨L, c, g, cl, ge, p, gr⟩, by simp [mkConfig, hne, hmem]⟩

/-- Witness for C10 at the duplicated unknown identifier list
`["foo", "foo"]` with chairman `"foo"`. -/
theorem mkConfig_no_id_validation_witness :
    ∃ cfg, mkConfig ["foo", "foo"] "foo" defaultGpt defaultClaude
      defaultGemini defaultPerplexity defaultGrok = Except.ok cfg :=
  mkConfig_no_id_validation ["foo", "foo"] "foo" defaultGpt defaultClaude
    defaultGemini defaultPerplexity defaultGrok (by decide) (by decide)

/-- A Python value that can come out of `getattr` on a `Config` instance:
besides the five `ModelConfig` fields it has the `primary_models` list, the
`chairman_model` string, and its (class-level) methods. -/
inductive PyValue where
  | modelConfig : ModelConfig → PyValue
  | strList : List String → PyValue
  | str : String → PyValue
  | boundMethod : String → PyValue
deriving DecidableEq

/-- Embeds Python attribute lookup on a `Config` instance: the seven
dataclass fields plus the two methods defined by the class.  (A real
instance also exposes inherited dunder attributes; those too are not
`ModelConfig` values, so omitting them only understates the leak proved
below.) -/
def Config.pyGetAttr (cfg : Config) (name : String) : Option PyValue :=
  if name = "primary_models" then some (PyValue.strList cfg.primary_models)
  else if name = "chairman_model" then some (PyValue.str cfg.chairman_model)
  else if name = "gpt" then some (PyValue.modelConfig cfg.gpt)
  else if name = "claude" then some (PyValue.modelConfig cfg.claude)
  else if name = "gemini" then some (PyValue.modelConfig cfg.gemini)
  else if name = "perplexity" then some (PyValue.modelConfig cfg.perplexity)
  else if name = "grok" then some (PyValue.modelConfig cfg.grok)
  else if name = "get_model_config" ∨ name = "__post_init__" then
    some (PyValue.boundMethod name)
  else none

/-- Embeds `Config.get_model_config`: `if not hasattr(self, model_id):
raise KeyError(f"Unknown model_id: '{model_id}'"); return getattr(self,
model_id)`.  `hasattr` is exactly "`pyGetAttr` succeeds". -/
def Config.get_model_config (cfg : Config) (model_id : String) :
    Except String PyValue :=
  match cfg.pyGetAttr model_id with
  | none => Except.error ("Unknown model_id: '" ++ model_id ++ "'")
  | some v => Except.ok v

/-- The `Config` value produced by `default_config()`. -/
def defaultConfigValue : Config :=
  ⟨["gpt", "claude"], "gpt", defaultGpt, defaultClaude, defaultGemini,
    defaultPerplexity, defaultGrok⟩

/-- C1: the input `"primary_models"` is outside the five known identifiers,
yet `get_model_config` raises no lookup error on it — the `hasattr` probe
accepts any attribute name of the instance, so the call returns the
`primary_models` list, a value that is not one of the five stored
`ModelConfig` instances. -/
theorem get_model_config_attr_leak :
    "primary_models" ∉ ["gpt", "claude", "gemini", "perplexity", "grok"]
      ∧ defaultConfigValue.get_model_config "primary_models"
          = Except.ok (PyValue.strList ["gpt", "claude"])
      ∧ (∀ e, defaultConfigValue.get_model_config "primary_models"
          ≠ Except.error e)
      ∧ (∀ mc, defaultConfigValue.get_model_config "primary_models"
          ≠ Except.ok (PyValue.modelConfig mc))
      ∧ ∀ id, id ∈ ["gpt", "claude", "gemini", "perplexity", "grok"] →
          ∃ mc, defaultConfigValue.get_model_config id
            = Except.ok (PyValue.modelConfig mc) := by
  refine ⟨by decide, rfl, ?_, ?_, ?_⟩
  · intro e h
    rw [show defaultConfigValue.get_model_config "primary_models"
        = Except.ok (PyValue.strList ["gpt", "claude"]) from rfl] at h
    cases h
  · intro mc h
    rw [show defaultConfigValue.get_model_config "primary_models"
        = Except.ok (PyValue.strList ["gpt", "claude"]) from rfl] at h
    cases h
  · intro id hid
    fin_cases hid
    · exact ⟨defaultGpt, rfl⟩
    · exact ⟨defaultClaude, rfl⟩
    · exact ⟨defaultGemini, rfl⟩
    · exact ⟨defaultPerplexity, rfl⟩
    · exact ⟨defaultGrok, rfl⟩

/-- C7: `default_config()` succeeds and the returned `Config` has
`primary_models = ["gpt", "claude"]`, chairman `"gpt"`, `gpt` and `claude`
enabled, and `gemini`, `perplexity`, `grok` disabled. -/
theorem default_config_spec :
    default_config = Except.ok defaultConfigValue
      ∧ defaultConfigValue.primary_models = ["gpt", "claude"]
      ∧ defaultConfigValue.chairman_model = "gpt"
      ∧ defaultConfigValue.gpt.enabled = true
      ∧ defaultConfigValue.claude.enabled = true
      ∧ defaultConfigValue.gemini.enabled = false
      ∧ defaultConfigValue.perplexity.enabled = false
      ∧ defaultConfigValue.grok.enabled = false := by
  exact ⟨rfl, rfl, rfl, rfl, rfl, rfl, rfl, rfl⟩

/-- Embeds the module-level `_API_KEY_ENV_VARS` dict, as an association
list in insertion order. -/
def API_KEY_ENV_VARS : List (String × String) :=
  [("gpt", "OPENAI_API_KEY"),
   ("claude", "ANTHROPIC_API_KEY"),
   ("gemini", "GOOGLE_API_KEY"),
   ("perplexity", "PERPLEXITY_API_KEY"),
   ("grok", "GROK_API_KEY")]

/-- The characters Python's argument-less `str.strip` removes (the
characters for which `str.isspace` holds). -/
def pySpaceChars : List Char :=
  [Char.ofNat 32, Char.ofNat 9, Char.ofNat 10, Char.ofNat 11,
   Char.ofNat 12, Char.ofNat 13, Char.ofNat 28, Char.ofNat 29,
   Char.ofNat 30, Char.ofNat 31, Char.ofNat 133, Char.ofNat 160,
   Char.ofNat 5760, Char.ofNat 8192, Char.ofNat 8193, Char.ofNat 8194,
   Char.ofNat 8195, Char.ofNat 8196, Char.ofNat 8197, Char.ofNat 8198,
   Char.ofNat 8199, Char.ofNat 8200, Char.ofNat 8201, Char.ofNat 8202,
   Char.ofNat 8232, Char.ofNat 8233, Char.ofNat 8239, Char.ofNat 8287,
   Char.ofNat 12288]

/-- Whether Python's `str.strip` removes this character. -/
def pyIsSpace (c : Char) : Bool := pySpaceChars.contains c

/-- Embeds Python's `str.strip()`: drop whitespace from both ends. -/
def pyStrip (s : String) : String :=
  String.mk (((s.toList.dropWhile pyIsSpace).reverse.dropWhile
    pyIsSpace).reverse)

/-- Embeds `load_api_keys()` over an environment snapshot `env`
(`os.environ.get`).  The loop inserts each model id at most once and ids
are pairwise distinct, so dict insertion is appending to the association
list. -/
def load_api_keys (env : String → Option String) : List (String × String) :=
  API_KEY_ENV_VARS.foldl (fun keys p =>
    match env p.2 with
    | none => keys
    | some value =>
      if value = "" then keys
      else
        let stripped := pyStrip value
        if stripped = "" then keys
        else keys ++ [(p.1, stripped)]) []

/-- The per-entry effect of one iteration of the `load_api_keys` loop:
`none` when the iteration inserts nothing, `some` of the inserted pair
otherwise. -/
def loadEntry (env : String → Option String) (p : String × String) :
    Option (String × String) :=
  match env p.2 with
  | none => none
  | some value =>
    if value = "" then none
    else
      let stripped := pyStrip value
      if stripped = "" then none
      else some (p.1, stripped)

/-- Embeds `get_env_var_name(model_id)`: `_API_KEY_ENV_VARS[model_id]`,
whose `KeyError` carries the missing key. -/
def get_env_var_name (model_id : String) : Except String String :=
  match API_KEY_ENV_VARS.lookup model_id with
  | some v => Except.ok v
  | none => Except.error model_id

/-- One fold step that appends the image of `f` when it exists. -/
def collectStep (f : α → Option β) (ks : List β) (a : α) : List β :=
  match f a with
  | none => ks
  | some b => ks ++ [b]

/-- Accumulating a `fold` that conditionally appends is `filterMap`. -/
theorem foldl_append_filterMap (f : α → Option β) (l : List α) :
    ∀ acc : List β, l.foldl (collectStep f) acc = acc ++ l.filterMap f := by
  induction l with
  | nil => intro acc; simp
  | cons a t ih =>
    intro acc
    cases h : f a <;> simp [List.foldl, collectStep, h, ih, List.filterMap_cons]

/-- `load_api_keys` is the `filterMap` of the per-entry effect over the
table. -/
theorem load_api_keys_eq (env : String → Option String) :
    load_api_keys env = API_KEY_ENV_VARS.filterMap (loadEntry env) := by
  unfold load_api_keys
  have hfun : (fun (keys : List (String × String)) (p : String × String) =>
      match env p.2 with
      | none => keys
      | some value =>
        if value = "" then keys
        else
          let stripped := pyStrip value
          if stripped = "" then keys
          else keys ++ [(p.1, stripped)]) =
      collectStep (loadEntry env) := by
    funext ks p
    unfold collectStep loadEntry
    cases h : env p.2 with
    | none => rfl
    | some v =>
      by_cases hv : v = ""
      · simp [hv]
      · by_cases hs : pyStrip v = "" <;> simp [hv, hs]
  rw [hfun]
  simpa using foldl_append_filterMap (loadEntry env) API_KEY_ENV_VARS []

/-- `pyStrip` of the empty string is empty. -/
theorem pyStrip_empty : pyStrip "" = "" := rfl

/-- Characterization of the per-entry effect. -/
theorem loadEntry_eq_some (env : String → Option String)
    (p q : String × String) :
    loadEntry env p = some q
      ↔ ∃ raw, env p.2 = some raw ∧ pyStrip raw ≠ ""
          ∧ q = (p.1, pyStrip raw) := by
  unfold loadEntry
  cases h : env p.2 with
  | none => simp
  | some v =>
    by_cases hv : v = ""
    · subst hv
      simp [pyStrip_empty]
    · by_cases hs : pyStrip v = ""
      · simp [hv, hs]
      · simp [hv, hs, eq_comm]
        exact fun _ hcon => hs hcon.symm

/-- C5: an entry `(id, v)` is in the result of `load_api_keys` exactly when
`id` has a designated environment variable in the table, that variable is
set in the snapshot, its value strips to something non-empty, and `v` is
that stripped value; consequently identifiers outside the five-key table
never appear. -/
theorem load_api_keys_spec (env : String → Option String) :
    (∀ id v : String,
      (id, v) ∈ load_api_keys env
        ↔ ∃ ev, (id, ev) ∈ API_KEY_ENV_VARS
            ∧ ∃ raw, env ev = some raw ∧ pyStrip raw ≠ ""
                ∧ v = pyStrip raw)
    ∧ ∀ q ∈ load_api_keys env,
        q.1 ∈ ["gpt", "claude", "gemini", "perplexity", "grok"] := by
  have hmem : ∀ id v : String,
      (id, v) ∈ load_api_keys env
        ↔ ∃ ev, (id, ev) ∈ API_KEY_ENV_VARS
            ∧ ∃ raw, env ev = some raw ∧ pyStrip raw ≠ ""
                ∧ v = pyStrip raw := by
    intro id v
    rw [load_api_keys_eq, List.mem_filterMap]
    constructor
    · rintro ⟨p, hp, hq⟩
      rw [loadEntry_eq_some] at hq
      obtain ⟨raw, h1, h2, h3⟩ := hq
      rw [Prod.mk.injEq] at h3
      refine ⟨p.2, ?_, raw, h1, h2, h3.2⟩
      rw [h3.1]
      simpa using hp
    · rintro ⟨ev, hev, raw, h1, h2, h3⟩
      refine ⟨(id, ev), hev, ?_⟩
      rw [loadEntry_eq_some]
      exact ⟨raw, h1, h2, by simp [h3]⟩
  refine ⟨hmem, ?_⟩
  rintro ⟨id, v⟩ hq
  obtain ⟨ev, hev, -⟩ := (hmem id v).mp hq
  simp only [API_KEY_ENV_VARS, List.mem_cons, List.not_mem_nil, or_false,
    Prod.mk.injEq] at hev
  rcases hev with ⟨rfl, -⟩ | ⟨rfl, -⟩ | ⟨rfl, -⟩ | ⟨rfl, -⟩ | ⟨rfl, -⟩ <;>
    simp

/-- An environment snapshot with only `OPENAI_API_KEY` set (with padding). -/
def envOnlyOpenAI : String → Option String :=
  fun s => if s = "OPENAI_API_KEY" then some "  sk-test  " else none

/-- Witness for C5: with only `OPENAI_API_KEY` set to a padded value, the
entry for `"gpt"` carries the stripped value and its key is among the
five. -/
theorem load_api_keys_spec_witness :
    ("gpt", "sk-test") ∈ load_api_keys envOnlyOpenAI
      ∧ "gpt" ∈ ["gpt", "claude", "gemini", "perplexity", "grok"] := by
  have h := ((load_api_keys_spec envOnlyOpenAI).1 "gpt" "sk-test").mpr
    ⟨"OPENAI_API_KEY", by decide, "  sk-test  ", rfl, by decide, by decide⟩
  exact ⟨h, (load_api_keys_spec envOnlyOpenAI).2 ("gpt", "sk-test") h⟩

/-- C6: `get_env_var_name` maps each of the five identifiers to its literal
environment-variable name and fails with the lookup error on every other
identifier. -/
theorem get_env_var_name_spec :
    get_env_var_name "gpt" = Except.ok "OPENAI_API_KEY"
      ∧ get_env_var_name "claude" = Except.ok "ANTHROPIC_API_KEY"
      ∧ get_env_var_name "gemini" = Except.ok "GOOGLE_API_KEY"
      ∧ get_env_var_name "perplexity" = Except.ok "PERPLEXITY_API_KEY"
      ∧ get_env_var_name "grok" = Except.ok "GROK_API_KEY"
      ∧ ∀ id : String,
          id ∉ ["gpt", "claude", "gemini", "perplexity", "grok"] →
            get_env_var_name id = Except.error id := by
  refine ⟨rfl, rfl, rfl, rfl, rfl, ?_⟩
  intro id h
  simp only [List.mem_cons, List.not_mem_nil, or_false, not_or] at h
  obtain ⟨h1, h2, h3, h4, h5⟩ := h
  have b1 : (id == "gpt") = false := by simp [h1]
  have b2 : (id == "claude") = false := by simp [h2]
  have b3 : (id == "gemini") = false := by simp [h3]
  have b4 : (id == "perplexity") = false := by simp [h4]
  have b5 : (id == "grok") = false := by simp [h5]
  simp [get_env_var_name, API_KEY_ENV_VARS, List.lookup, b1, b2, b3, b4, b5]

/-- Witness for C6 at the unknown identifier `"unknown"`. -/
theorem get_env_var_name_spec_witness :
    get_env_var_name "unknown" = Except.error "unknown" :=
  get_env_var_name_spec.2.2.2.2.2 "unknown" (by decide)
